import Mathlib

/-!
Shallow embedding of the fokus terminal focus-timer (src/src/main.rs).

Conventions of the embedding:
* Rust `Duration` / `Instant` values are modelled as natural numbers of
  milliseconds (the program only ever observes `as_secs()` and
  `subsec_millis()`, both recoverable from milliseconds).
* `Instant::elapsed()` becomes `now - start` on `Nat` (elapsed time is
  non-negative, and `Nat` subtraction truncates at zero exactly like the
  monotonic clock guarantees `now ≥ start`).
* The `HashMap<String, u64>` history is modelled as an association list
  `List (String × Nat)`; its iteration order is arbitrary, which matches a
  hash map's unspecified iteration order.
* The effectful parts of one loop iteration (the `terminal.draw` closure's
  state mutations and the key-event dispatch) are modelled as pure functions
  returning the new state together with the argument passed to
  `_save_history` (if any), the error lines printed by `eprintln!`, and
  whether the loop `break`s.  The outcome of `_save_history` is an input
  `saveOk : Bool`, mirroring that the program only inspects it to print an
  error message.
-/

/-- Calendar date as used by the history view; models `chrono::NaiveDate`
restricted to the operations the program performs (parsing and ordering). -/
structure Date where
  y : Nat
  m : Nat
  d : Nat
deriving DecidableEq

/-- Lexicographic order on dates; models `chrono::NaiveDate`'s `Ord`
(year, then month, then day). -/
def Date.le (a b : Date) : Prop :=
  a.y < b.y ∨ (a.y = b.y ∧ (a.m < b.m ∨ (a.m = b.m ∧ a.d ≤ b.d)))

instance (a b : Date) : Decidable (Date.le a b) := by
  unfold Date.le; infer_instance

/-- Row comparator used for the history view: `a` may come before `b` iff
`b`'s date is at most `a`'s date, i.e. the list is sorted by date descending.
Models the Rust comparator `|a, b| b.0.cmp(&a.0)` (ascending order with
respect to that comparator is descending order of dates). -/
def rowLe (a b : Date × String) : Prop := Date.le b.1 a.1

instance : DecidableRel rowLe := by
  intro a b; unfold rowLe; infer_instance

instance : IsTotal (Date × String) rowLe := by
  constructor; intro a b; unfold rowLe Date.le; omega

instance : IsTrans (Date × String) rowLe := by
  constructor; intro a b c; unfold rowLe Date.le; omega

/-- Numeric value of a list of decimal digit characters. -/
def digitsVal (cs : List Char) : Nat :=
  cs.foldl (fun a c => a * 10 + (c.toNat - 48)) 0

/-- Split a character list on `-` separators (keeping empty fields), the
way a `YYYY-MM-DD` string decomposes into its numeric fields. -/
def fieldsDash : List Char → List (List Char)
  | [] => [[]]
  | c :: cs =>
    match fieldsDash cs with
    | [] => [[]]
    | f :: fs => if c = '-' then [] :: f :: fs else (c :: f) :: fs

/-- Gregorian leap-year test. -/
def isLeapYear (y : Nat) : Bool :=
  (y % 4 == 0 && y % 100 != 0) || y % 400 == 0

/-- Number of days in a month of a given year. -/
def daysInMonth (y m : Nat) : Nat :=
  if m = 2 then (if isLeapYear y then 29 else 28)
  else if m = 4 ∨ m = 6 ∨ m = 9 ∨ m = 11 then 30
  else 31

/-- Parse one numeric field of at most `maxLen` decimal digits. -/
def numField (maxLen : Nat) (cs : List Char) : Option Nat :=
  if cs.length = 0 ∨ maxLen < cs.length ∨ ¬ (cs.all Char.isDigit = true) then none
  else some (digitsVal cs)

/-- Modelled from the spec: `chrono::NaiveDate::parse_from_str(k, "%Y-%m-%d")`
lives in the external `chrono` crate, so it is modelled from the spec's
words ("parse every key as a calendar date", keys are `YYYY-MM-DD`): the
string must consist of exactly three dash-separated decimal fields (year up
to six digits, month and day up to two digits, matching chrono's lenient
zero-padding on parse), and the triple must denote a valid calendar date
(month 1–12, day within the month's length, leap years included). -/
def parseDate (s : String) : Option Date :=
  match fieldsDash s.toList with
  | [ys, ms, ds] =>
    match numField 6 ys, numField 2 ms, numField 2 ds with
    | some y, some m, some d =>
      if 1 ≤ m ∧ m ≤ 12 ∧ 1 ≤ d ∧ d ≤ daysInMonth y m then some ⟨y, m, d⟩ else none
    | _, _, _ => none
  | _ => none

/-- Zero-pad a natural number to at least two decimal digits; models the
Rust format specifier `{:02}` (pads short values, never truncates). -/
def pad2 (n : Nat) : String :=
  if n < 10 then "0" ++ toString n else toString n

/-- Translation of `format_duration` (main.rs lines 560–565), on a duration
given in milliseconds: `mins = as_secs / 60`, `secs = as_secs % 60`,
`centis = subsec_millis / 10`, rendered as `MM:SS.CC`. -/
def format_duration (ms : Nat) : String :=
  pad2 (ms / 1000 / 60) ++ ":" ++ pad2 (ms / 1000 % 60) ++ "." ++ pad2 (ms % 1000 / 10)

/-- Translation of `*history.entry(today).or_insert(0) += minutes`: add
`m` to the entry of key `k`, inserting the key if absent. -/
def entryAdd (k : String) (m : Nat) : List (String × Nat) → List (String × Nat)
  | [] => [(k, m)]
  | (k0, v) :: t => if k0 = k then (k0, v + m) :: t else (k0, v) :: entryAdd k m t

/-- Minutes recorded for key `k` (0 if absent); models `history.get(k)`
defaulted to 0. -/
def getMinutes (k : String) : List (String × Nat) → Nat
  | [] => 0
  | (k0, v) :: t => if k0 = k then v else getMinutes k t

/-- Translation of the history-view construction (main.rs lines 361–373):
partition the keys into parsed dates and unparsable keys (in iteration
order), stable-sort the parsed ones by date descending, then append the
unparsable keys (tagged with the dummy date 1970-01-01) after all sorted
rows.  Rust's `sort_by` is a stable sort, so any stable sorting algorithm
is extensionally faithful; we use insertion sort. -/
def historyRows (keys : List String) : List (Date × String) :=
  let parsed := keys.filterMap (fun k => (parseDate k).map (fun d => (d, k)))
  let unparsable := keys.filter (fun k => (parseDate k).isNone)
  (List.insertionSort rowLe parsed) ++ unparsable.map (fun k => ((⟨1970, 1, 1⟩ : Date), k))

/-- Translation of the per-frame scroll clamp (main.rs lines 381–385):
if everything fits the offset becomes 0, otherwise it is capped at
`total_rows - available_rows`. -/
def clampOffset (totalRows availableRows offset : Nat) : Nat :=
  if totalRows ≤ availableRows then 0
  else if totalRows - availableRows < offset then totalRows - availableRows
  else offset

/-- Exclusive end of the visible slice (main.rs line 387):
`(offset + available_rows).min(total_rows)`. -/
def sliceEnd (offset availableRows totalRows : Nat) : Nat :=
  min (offset + availableRows) totalRows

/-- The mutable state of the main loop (main.rs lines 237–254), one field
per local variable.  Timestamps and durations are in milliseconds. -/
structure AppState where
  headerPageIndex : Nat
  stopwatchStart : Nat
  stopwatchRunning : Bool
  stopwatchDisplay : String
  timerStart : Nat
  timerRunning : Bool
  timerTotal : Nat
  timerDisplay : String
  timerLogged : Bool
  timerDone : Bool
  historyOffset : Nat
  history : List (String × Nat)
deriving DecidableEq

/-- Result of one modelled step: the new state, the map passed to
`_save_history` (if a save happened), the `eprintln!` error lines, and
whether the loop breaks. -/
structure StepOut where
  state : AppState
  saved : Option (List (String × Nat))
  errors : List String
  quit : Bool
deriving DecidableEq

/-- A step that changes nothing and produces no effects. -/
def noStep (s : AppState) : StepOut :=
  { state := s, saved := none, errors := [], quit := false }

/-- Error lines produced by one `_save_history` call whose outcome is
`saveOk`; models `if let Err(e) = _save_history(&history) { eprintln!(..) }`. -/
def saveErrors (saveOk : Bool) : List String :=
  if saveOk then [] else ["Failed to save history"]

/-- Key events the dispatcher distinguishes (arrow keys and their hjkl
aliases are a single case each, exactly as the `match` arms group them). -/
inductive Key where
  | right
  | left
  | up
  | down
  | space
  | q
  | other
deriving DecidableEq

/-- Timer adjustment step: `Duration::from_secs(60)` in milliseconds. -/
def extra : Nat := 60000

/-- `Duration::from_secs(60*999)` in milliseconds. -/
def timer_max : Nat := 999 * 60000

/-- `Duration::from_secs(60*1)` in milliseconds. -/
def timer_min : Nat := 60000

/-- Translation of the key-event dispatch (main.rs lines 443–542).
`now` is the current instant, `today` the current local date string,
`saveOk` the outcome of any `_save_history` call made by this step. -/
def handleKey (saveOk : Bool) (now : Nat) (today : String) (k : Key) (s : AppState) : StepOut :=
  match k with
  | .right =>
    if s.timerRunning = false ∧ s.stopwatchRunning = false then
      noStep { s with headerPageIndex := (s.headerPageIndex + 1) % 3 }
    else noStep s
  | .left =>
    if s.timerRunning = false ∧ s.stopwatchRunning = false then
      noStep { s with headerPageIndex := (s.headerPageIndex + 3 - 1) % 3 }
    else noStep s
  | .up =>
    match s.headerPageIndex with
    | 1 =>
      if s.timerRunning = false then
        let t := min (s.timerTotal + extra) timer_max
        noStep { s with timerTotal := t, timerDisplay := format_duration t }
      else noStep s
    | 2 =>
      if 0 < s.historyOffset then
        noStep { s with historyOffset := s.historyOffset - 1 }
      else noStep s
    | _ => noStep s
  | .down =>
    match s.headerPageIndex with
    | 1 =>
      if s.timerRunning = false then
        let t := max (s.timerTotal - extra) timer_min
        noStep { s with timerTotal := t, timerDisplay := format_duration t }
      else noStep s
    | 2 =>
      noStep { s with historyOffset := s.historyOffset + 1 }
    | _ => noStep s
  | .space =>
    match s.headerPageIndex with
    | 0 =>
      if s.stopwatchRunning then
        let elapsed := now - s.stopwatchStart
        let minutes := elapsed / 1000 / 60
        if 0 < minutes then
          let h := entryAdd today minutes s.history
          { state := { s with stopwatchRunning := false, history := h,
                              stopwatchDisplay := "00:00.00" },
            saved := some h, errors := saveErrors saveOk, quit := false }
        else
          noStep { s with stopwatchRunning := false, stopwatchDisplay := "00:00.00" }
      else
        noStep { s with stopwatchRunning := true, stopwatchStart := now }
    | 1 =>
      if s.timerDone then
        noStep { s with timerDisplay := format_duration s.timerTotal, timerDone := false }
      else if s.timerRunning then
        noStep { s with timerRunning := false, timerDisplay := format_duration s.timerTotal }
      else
        noStep { s with timerRunning := true, timerStart := now, timerLogged := false }
    | _ => noStep s
  | .q =>
    if s.stopwatchRunning then
      let elapsed := now - s.stopwatchStart
      let minutes := elapsed / 1000 / 60
      if 0 < minutes then
        let h := entryAdd today minutes s.history
        { state := { s with history := h },
          saved := some h, errors := saveErrors saveOk, quit := true }
      else { state := s, saved := none, errors := [], quit := true }
    else { state := s, saved := none, errors := [], quit := true }
  | .other => noStep s

/-- Translation of the state mutations performed inside the `terminal.draw`
closure on one render tick (main.rs lines 320–402): on page 0 the stopwatch
display is refreshed while running; on page 1 the remaining time is
recomputed and the edge-triggered expiry commit runs; on page 2 the scroll
offset is clamped to the view built from the history keys.  `widgetHeight`
is the height of the centred history widget (`middle_inner[1].height`). -/
def renderTick (saveOk : Bool) (now : Nat) (today : String) (widgetHeight : Nat)
    (s : AppState) : StepOut :=
  match s.headerPageIndex with
  | 0 =>
    if s.stopwatchRunning then
      let elapsed := now - s.stopwatchStart
      noStep { s with stopwatchDisplay := format_duration elapsed }
    else noStep s
  | 1 =>
    if s.timerRunning then
      let elapsed := now - s.timerStart
      let remaining := if s.timerTotal ≤ elapsed then 0 else s.timerTotal - elapsed
      let s1 := { s with timerDisplay := format_duration remaining }
      if remaining = 0 ∧ s.timerLogged = false then
        let minutes := s.timerTotal / 1000 / 60
        if 0 < minutes then
          let h := entryAdd today minutes s.history
          { state := { s1 with timerRunning := false, timerDone := true,
                               timerLogged := true, history := h },
            saved := some h, errors := saveErrors saveOk, quit := false }
        else
          noStep { s1 with timerRunning := false, timerDone := true, timerLogged := true }
      else noStep s1
    else noStep s
  | 2 =>
    let rows := historyRows (s.history.map Prod.fst)
    let availableRows := widgetHeight - 2
    noStep { s with historyOffset := clampOffset rows.length availableRows s.historyOffset }
  | _ => noStep s

/-- Initial loop state (main.rs lines 227–254): page 0, both machines idle,
timer total taken from the validated config (minutes), history as loaded.
`Instant::now()` at startup is instant 0. -/
def initState (defaultTimerMinutes : Nat) (history : List (String × Nat)) : AppState :=
  { headerPageIndex := 0
    stopwatchStart := 0
    stopwatchRunning := false
    stopwatchDisplay := "00:00.00"
    timerStart := 0
    timerRunning := false
    timerTotal := defaultTimerMinutes * 60000
    timerDisplay := format_duration (defaultTimerMinutes * 60000)
    timerLogged := false
    timerDone := false
    historyOffset := 0
    history := history }

/-! ## Helper lemmas -/

lemma getMinutes_entryAdd (k : String) (m : Nat) (h : List (String × Nat)) :
    getMinutes k (entryAdd k m h) = getMinutes k h + m := by
  induction h with
  | nil => simp [entryAdd, getMinutes]
  | cons p t ih =>
    obtain ⟨k0, v⟩ := p
    by_cases hk : k0 = k <;> simp [entryAdd, getMinutes, hk, ih]

lemma pad2_len_two : ∀ n : Nat, n < 100 → (pad2 n).length = 2 := by decide

lemma format_duration_zero : format_duration 0 = "00:00.00" := by decide

/-! ## Claim theorems -/

/-- C7: the duration formatter is a pure total function producing
`MM:SS.CC` with each field zero-padded to at least two digits, minutes
never truncated, and centiseconds obtained by truncating sub-second
milliseconds to tens (never rounding up); in particular
`format(0s) = "00:00.00"`, `format(90.5s) = "01:30.50"`, and
`format(3599.99s) = "59:59.99"`. -/
theorem format_duration_spec :
    format_duration 0 = "00:00.00" ∧
    format_duration 90500 = "01:30.50" ∧
    format_duration 3599990 = "59:59.99" ∧
    format_duration 3599999 = "59:59.99" ∧
    format_duration (999 * 60000) = "999:00.00" ∧
    (∀ ms : Nat,
      format_duration ms =
        pad2 (ms / 60000) ++ ":" ++ pad2 (ms / 1000 % 60) ++ "." ++ pad2 (ms % 1000 / 10)) ∧
    (∀ ms : Nat, ms / 1000 % 60 < 60 ∧ ms % 1000 / 10 < 100 ∧
      (pad2 (ms / 1000 % 60)).length = 2 ∧ (pad2 (ms % 1000 / 10)).length = 2) ∧
    (∀ n : Nat, (toString n).length ≤ (pad2 n).length) := by
  refine ⟨by decide, by decide, by decide, by decide, by decide, ?_, ?_, ?_⟩
  · intro ms
    unfold format_duration
    rw [Nat.div_div_eq_div_mul]
  · intro ms
    have h1 : ms / 1000 % 60 < 60 := Nat.mod_lt _ (by omega)
    have h2 : ms % 1000 / 10 < 100 := by omega
    exact ⟨h1, h2, pad2_len_two _ (by omega), pad2_len_two _ h2⟩
  · intro n
    unfold pad2
    split
    · rw [String.length_append]; omega
    · exact Nat.le_refl _

lemma renderTick_page2 (saveOk : Bool) (now : Nat) (today : String) (widgetHeight : Nat)
    (s : AppState) (hpage : s.headerPageIndex = 2) :
    renderTick saveOk now today widgetHeight s
      = noStep { s with historyOffset := clampOffset (historyRows (s.history.map Prod.fst)).length (widgetHeight - 2) s.historyOffset } := by
  obtain ⟨p, a1, a2, a3, a4, a5, a6, a7, a8, a9, a10, a11⟩ := s
  simp only at hpage
  subst hpage
  rfl

lemma clampOffset_le (t a o : Nat) : clampOffset t a o ≤ t - a := by
  unfold clampOffset
  split
  · omega
  · split <;> omega

/-- A concrete page-2 state used to witness the pagination claims: three
history entries (one with an unparsable key) and a scroll offset pushed far
past the end. -/
def pageTwoState : AppState :=
  { initState 1 [("2024-01-01", 5), ("2024-02-01", 3), ("oops", 1)] with
      headerPageIndex := 2, historyOffset := 100 }

/-- C8: on each history-page render the scroll offset is clamped to
`[0, max 0 (total_rows - available_rows)]`: it becomes 0 when all rows fit
in the available rows, and otherwise never exceeds `total_rows` minus the
available rows (it is the old offset capped at that bound). -/
theorem history_offset_clamped (saveOk : Bool) (now : Nat) (today : String)
    (widgetHeight : Nat) (s : AppState) (hpage : s.headerPageIndex = 2) :
    (renderTick saveOk now today widgetHeight s).state.historyOffset
        = clampOffset (historyRows (s.history.map Prod.fst)).length
            (widgetHeight - 2) s.historyOffset ∧
    ((historyRows (s.history.map Prod.fst)).length ≤ widgetHeight - 2 →
      (renderTick saveOk now today widgetHeight s).state.historyOffset = 0) ∧
    (renderTick saveOk now today widgetHeight s).state.historyOffset
        ≤ (historyRows (s.history.map Prod.fst)).length - (widgetHeight - 2) ∧
    (¬ (historyRows (s.history.map Prod.fst)).length ≤ widgetHeight - 2 →
      (renderTick saveOk now today widgetHeight s).state.historyOffset
        = min s.historyOffset
            ((historyRows (s.history.map Prod.fst)).length - (widgetHeight - 2))) := by
  rw [renderTick_page2 saveOk now today widgetHeight s hpage]
  refine ⟨rfl, ?_, ?_, ?_⟩
  · intro hfit
    simp [noStep, clampOffset, hfit]
  · exact clampOffset_le _ _ _
  · intro hbig
    simp only [noStep, clampOffset, if_neg hbig]
    split <;> omega

/-- Witness for C8 at a concrete state: 3 rows, 5 available rows (all fit),
prior offset 100; after the clamp the offset is 0. -/
theorem history_offset_clamped_witness :
    (renderTick true 0 "2024-02-01" 7 pageTwoState).state.historyOffset = 0 := by
  have h := history_offset_clamped true 0 "2024-02-01" 7 pageTwoState rfl
  exact h.2.1 (by decide)

/-- C10: for every history mapping and every prior scroll offset, after the
per-frame clamping on the history page the slice bounds satisfy
`offset ≤ end ≤ total_rows`, so slicing the sorted row list never indexes
out of bounds. -/
theorem history_slice_in_bounds (saveOk : Bool) (now : Nat) (today : String)
    (widgetHeight : Nat) (s : AppState) (hpage : s.headerPageIndex = 2) :
    (renderTick saveOk now today widgetHeight s).state.historyOffset
        ≤ sliceEnd ((renderTick saveOk now today widgetHeight s).state.historyOffset)
            (widgetHeight - 2) (historyRows (s.history.map Prod.fst)).length ∧
    sliceEnd ((renderTick saveOk now today widgetHeight s).state.historyOffset)
        (widgetHeight - 2) (historyRows (s.history.map Prod.fst)).length
      ≤ (historyRows (s.history.map Prod.fst)).length := by
  rw [renderTick_page2 saveOk now today widgetHeight s hpage]
  simp only [noStep]
  constructor
  · have := clampOffset_le (historyRows (s.history.map Prod.fst)).length
      (widgetHeight - 2) s.historyOffset
    unfold sliceEnd
    omega
  · unfold sliceEnd
    omega

/-- Witness for C10 at a concrete state: 3 rows, 0 available rows
(widget height 2), prior offset 100; the slice bounds are in range. -/
theorem history_slice_in_bounds_witness :
    (renderTick true 0 "2024-02-01" 2 pageTwoState).state.historyOffset
        ≤ sliceEnd ((renderTick true 0 "2024-02-01" 2 pageTwoState).state.historyOffset) 0
            (historyRows (pageTwoState.history.map Prod.fst)).length ∧
    sliceEnd ((renderTick true 0 "2024-02-01" 2 pageTwoState).state.historyOffset) 0
        (historyRows (pageTwoState.history.map Prod.fst)).length
      ≤ (historyRows (pageTwoState.history.map Prod.fst)).length :=
  history_slice_in_bounds true 0 "2024-02-01" 2 pageTwoState rfl

/-- C6: left/right navigation is a no-op while the stopwatch or timer is
running; otherwise right cycles the page index `0 → 1 → 2 → 0`, left cycles
the inverse, and the page index always stays in `{0, 1, 2}`. -/
theorem page_nav_spec (saveOk : Bool) (now : Nat) (today : String) (s : AppState)
    (hpage : s.headerPageIndex < 3) :
    ((s.timerRunning = true ∨ s.stopwatchRunning = true) →
      handleKey saveOk now today Key.right s = noStep s ∧
      handleKey saveOk now today Key.left s = noStep s) ∧
    (s.timerRunning = false → s.stopwatchRunning = false →
      (handleKey saveOk now today Key.right s).state.headerPageIndex
          = (s.headerPageIndex + 1) % 3 ∧
      (handleKey saveOk now today Key.left s).state.headerPageIndex
          = (s.headerPageIndex + 2) % 3 ∧
      (handleKey saveOk now today Key.left
          (handleKey saveOk now today Key.right s).state).state.headerPageIndex
        = s.headerPageIndex ∧
      (handleKey saveOk now today Key.right
          (handleKey saveOk now today Key.left s).state).state.headerPageIndex
        = s.headerPageIndex) ∧
    (handleKey saveOk now today Key.right s).state.headerPageIndex < 3 ∧
    (handleKey saveOk now today Key.left s).state.headerPageIndex < 3 := by
  obtain ⟨p, sst, srun, sdisp, tst, trun, ttot, tdisp, tlog, tdone, hoff, hist⟩ := s
  simp only at hpage
  refine ⟨?_, ?_, ?_, ?_⟩
  · rintro (h | h)
    · simp only at h
      subst h
      cases srun <;> simp [handleKey, noStep]
    · simp only at h
      subst h
      cases trun <;> simp [handleKey, noStep]
  · intro ht hs
    simp only at ht hs
    subst ht; subst hs
    refine ⟨by simp [handleKey, noStep], by simp [handleKey, noStep], ?_, ?_⟩ <;>
      simp [handleKey, noStep] <;> omega
  · cases trun <;> cases srun <;> simp [handleKey, noStep] <;> omega
  · cases trun <;> cases srun <;> simp [handleKey, noStep] <;> omega

/-- Witness for C6: from idle page 0, right goes to page 1; from a state
with the timer running, right is a no-op. -/
theorem page_nav_spec_witness :
    (handleKey true 0 "2024-01-01" Key.right (initState 1 [])).state.headerPageIndex = 1 ∧
    handleKey true 0 "2024-01-01" Key.right { initState 1 [] with timerRunning := true }
      = noStep { initState 1 [] with timerRunning := true } := by
  constructor
  · have h := page_nav_spec true 0 "2024-01-01" (initState 1 []) (by decide)
    have h2 := (h.2.1 rfl rfl).1
    simpa using h2
  · have h := page_nav_spec true 0 "2024-01-01"
      { initState 1 [] with timerRunning := true } (by decide)
    exact (h.1 (Or.inl rfl)).1

/-- Counterexample to C4 as stated: the adjustment commands are *not*
accepted only in the `Idle` state — in the `Done` state (`timerDone = true`,
`timerRunning = false`, reached after an expiry and before the acknowledge
key) an increase command is accepted and changes `total_duration` from 60 s
to 120 s. -/
theorem timer_adjust_accepted_in_done :
    (({ initState 1 [] with headerPageIndex := 1, timerDone := true } : AppState).timerDone
        = true) ∧
    (({ initState 1 [] with headerPageIndex := 1, timerDone := true } : AppState).timerRunning
        = false) ∧
    (handleKey true 0 "2024-01-01" Key.up
        { initState 1 [] with headerPageIndex := 1, timerDone := true }).state.timerTotal
      = 120000 ∧
    ({ initState 1 [] with headerPageIndex := 1, timerDone := true } : AppState).timerTotal
      = 60000 := by
  refine ⟨rfl, rfl, ?_, rfl⟩
  decide

/-- C4 (amended): the timer duration adjustment commands are accepted
whenever the timer is *not running* (both `Idle` and `Done`) and are no-ops
while it is running; whenever accepted, increase yields
`min (total + 60 s) 999 min` and decrease yields `max (total - 60 s) 1 min`,
so a total within `[60 s, 59940 s]` stays within that range without
wrapping. -/
theorem timer_adjust_clamped (saveOk : Bool) (now : Nat) (today : String) (s : AppState)
    (hpage : s.headerPageIndex = 1) :
    (s.timerRunning = true →
      handleKey saveOk now today Key.up s = noStep s ∧
      handleKey saveOk now today Key.down s = noStep s) ∧
    (s.timerRunning = false →
      (handleKey saveOk now today Key.up s).state.timerTotal
          = min (s.timerTotal + extra) timer_max ∧
      (handleKey saveOk now today Key.down s).state.timerTotal
          = max (s.timerTotal - extra) timer_min ∧
      timer_min ≤ (handleKey saveOk now today Key.up s).state.timerTotal ∧
      (handleKey saveOk now today Key.up s).state.timerTotal ≤ timer_max ∧
      timer_min ≤ (handleKey saveOk now today Key.down s).state.timerTotal ∧
      (s.timerTotal ≤ timer_max →
        (handleKey saveOk now today Key.down s).state.timerTotal ≤ timer_max)) := by
  obtain ⟨p, sst, srun, sdisp, tst, trun, ttot, tdisp, tlog, tdone, hoff, hist⟩ := s
  simp only at hpage
  subst hpage
  constructor
  · intro ht
    simp only at ht
    subst ht
    exact ⟨rfl, rfl⟩
  · intro ht
    simp only at ht
    subst ht
    simp only [handleKey, noStep]
    refine ⟨rfl, rfl, ?_, ?_, ?_, ?_⟩ <;> (simp [extra, timer_max, timer_min]; try omega)

/-- Witness for the amended C4: with the timer idle at 999 minutes on
page 1, an increase command leaves the total at the 999-minute cap. -/
theorem timer_adjust_clamped_witness :
    (handleKey true 0 "2024-01-01" Key.up
        { initState 999 [] with headerPageIndex := 1 }).state.timerTotal = 59940000 := by
  have h := timer_adjust_clamped true 0 "2024-01-01"
    { initState 999 [] with headerPageIndex := 1 } rfl
  have h2 := (h.2 rfl).1
  simpa [initState, extra, timer_max] using h2

/-- C1: a render tick on the timer page that observes remaining time zero
while running with `logged` still false transitions to `Done`
(`running = false`, `done = true`), adds `total_duration`'s whole minutes
to today's history entry and passes the updated map to a save when those
minutes are at least 1 (and leaves history untouched when they are 0), and
sets `logged = true`; afterwards every further render tick is a complete
no-op, so the commit fires exactly once per countdown run. -/
theorem timer_expiry_commit (saveOk : Bool) (now : Nat) (today : String)
    (widgetHeight : Nat) (s : AppState)
    (hpage : s.headerPageIndex = 1) (hrun : s.timerRunning = true)
    (hlog : s.timerLogged = false) (hzero : s.timerTotal ≤ now - s.timerStart) :
    (renderTick saveOk now today widgetHeight s).state.timerRunning = false ∧
    (renderTick saveOk now today widgetHeight s).state.timerDone = true ∧
    (renderTick saveOk now today widgetHeight s).state.timerLogged = true ∧
    (renderTick saveOk now today widgetHeight s).state.timerDisplay = "00:00.00" ∧
    (0 < s.timerTotal / 1000 / 60 →
      getMinutes today (renderTick saveOk now today widgetHeight s).state.history
          = getMinutes today s.history + s.timerTotal / 1000 / 60 ∧
      (renderTick saveOk now today widgetHeight s).saved
          = some (renderTick saveOk now today widgetHeight s).state.history) ∧
    (s.timerTotal / 1000 / 60 = 0 →
      (renderTick saveOk now today widgetHeight s).state.history = s.history ∧
      (renderTick saveOk now today widgetHeight s).saved = none) ∧
    (∀ (saveOk2 : Bool) (now2 : Nat) (today2 : String) (wh2 : Nat),
      renderTick saveOk2 now2 today2 wh2 (renderTick saveOk now today widgetHeight s).state
        = noStep (renderTick saveOk now today widgetHeight s).state) := by
  obtain ⟨p, sst, srun, sdisp, tst, trun, ttot, tdisp, tlog, tdone, hoff, hist⟩ := s
  simp only at hpage hrun hlog hzero
  subst hpage; subst hrun; subst hlog
  by_cases hm : 0 < ttot / 1000 / 60
  · simp [renderTick, hzero, hm, noStep, saveErrors, getMinutes_entryAdd, format_duration_zero]
    omega
  · simp [renderTick, hzero, hm, noStep, saveErrors, format_duration_zero]

/-- A concrete state with the timer running on page 1 and one existing
history entry, used to witness the timer-expiry claim. -/
def expiryState : AppState :=
  { initState 1 [("2024-01-01", 5)] with headerPageIndex := 1, timerRunning := true }

/-- Witness for C1: a 1-minute timer started at instant 0 observed at
instant 60000 commits exactly 1 minute (5 → 6) and sets the logged flag. -/
theorem timer_expiry_commit_witness :
    (renderTick true 60000 "2024-01-01" 10 expiryState).state.timerLogged = true ∧
    getMinutes "2024-01-01" (renderTick true 60000 "2024-01-01" 10 expiryState).state.history
      = 6 := by
  have h := timer_expiry_commit true 60000 "2024-01-01" 10 expiryState rfl rfl rfl (by decide)
  refine ⟨h.2.2.1, ?_⟩
  have h2 := (h.2.2.2.2.1 (by decide)).1
  rw [h2]
  decide

/-- A concrete state with the stopwatch running on page 0 and one existing
history entry, used to witness the stopwatch claims. -/
def runningStopwatchState : AppState :=
  { initState 1 [("2024-01-01", 5)] with stopwatchRunning := true }

/-- C2: pressing space on page 0 while the stopwatch runs returns it to
idle and resets the display to "00:00.00" regardless of commit; when
`floor(elapsed_seconds / 60) ≥ 1` exactly that many minutes are added to
today's entry and the updated map is passed to a save; when the elapsed
time is under 60 seconds, 0 minutes are committed, the history is
completely unchanged (no entry is created) and no save happens. -/
theorem stopwatch_stop_commit (saveOk : Bool) (now : Nat) (today : String) (s : AppState)
    (hpage : s.headerPageIndex = 0) (hrun : s.stopwatchRunning = true) :
    (handleKey saveOk now today Key.space s).state.stopwatchRunning = false ∧
    (handleKey saveOk now today Key.space s).state.stopwatchDisplay = "00:00.00" ∧
    (handleKey saveOk now today Key.space s).quit = false ∧
    (0 < (now - s.stopwatchStart) / 1000 / 60 →
      getMinutes today (handleKey saveOk now today Key.space s).state.history
          = getMinutes today s.history + (now - s.stopwatchStart) / 1000 / 60 ∧
      (handleKey saveOk now today Key.space s).saved
          = some (handleKey saveOk now today Key.space s).state.history) ∧
    (now - s.stopwatchStart < 60000 →
      (now - s.stopwatchStart) / 1000 / 60 = 0 ∧
      (handleKey saveOk now today Key.space s).state.history = s.history ∧
      (handleKey saveOk now today Key.space s).saved = none) := by
  obtain ⟨p, sst, srun, sdisp, tst, trun, ttot, tdisp, tlog, tdone, hoff, hist⟩ := s
  simp only at hpage hrun
  subst hpage; subst hrun
  by_cases hm : 0 < (now - sst) / 1000 / 60
  · simp [handleKey, hm, noStep, saveErrors, getMinutes_entryAdd]
    omega
  · simp [handleKey, hm, noStep, saveErrors]
    omega

/-- Witness for C2: stopping after 150 s commits 2 minutes (5 → 7) and
stops the stopwatch. -/
theorem stopwatch_stop_commit_witness :
    (handleKey true 150000 "2024-01-01" Key.space runningStopwatchState).state.stopwatchRunning
        = false ∧
    getMinutes "2024-01-01"
        (handleKey true 150000 "2024-01-01" Key.space runningStopwatchState).state.history
      = 7 := by
  have h := stopwatch_stop_commit true 150000 "2024-01-01" runningStopwatchState rfl rfl
  refine ⟨h.1, ?_⟩
  have h2 := (h.2.2.2.1 (by decide)).1
  rw [h2]
  decide

/-- C3: the quit key performs the same commit-on-stop logic before the
loop exits — while the stopwatch runs, `floor(elapsed_seconds / 60)`
minutes are added to today's entry and the updated map is passed to a save
when that count is at least 1 (75 elapsed seconds commit exactly 1
minute); quitting with the stopwatch not running changes nothing and
saves nothing at that point.  In every case the loop exits. -/
theorem quit_commit (saveOk : Bool) (now : Nat) (today : String) (s : AppState) :
    (handleKey saveOk now today Key.q s).quit = true ∧
    (s.stopwatchRunning = true → 0 < (now - s.stopwatchStart) / 1000 / 60 →
      getMinutes today (handleKey saveOk now today Key.q s).state.history
          = getMinutes today s.history + (now - s.stopwatchStart) / 1000 / 60 ∧
      (handleKey saveOk now today Key.q s).saved
          = some (handleKey saveOk now today Key.q s).state.history) ∧
    (s.stopwatchRunning = true → now - s.stopwatchStart = 75000 →
      getMinutes today (handleKey saveOk now today Key.q s).state.history
          = getMinutes today s.history + 1 ∧
      (handleKey saveOk now today Key.q s).saved
          = some (handleKey saveOk now today Key.q s).state.history) ∧
    (s.stopwatchRunning = false →
      handleKey saveOk now today Key.q s
        = { state := s, saved := none, errors := [], quit := true }) := by
  obtain ⟨p, sst, srun, sdisp, tst, trun, ttot, tdisp, tlog, tdone, hoff, hist⟩ := s
  dsimp only
  cases srun
  · simp [handleKey]
  · by_cases hm : 0 < (now - sst) / 1000 / 60
    · refine ⟨?_, ?_, ?_, ?_⟩
      · simp [handleKey, hm]
      · intro _ _
        simp [handleKey, hm, saveErrors, getMinutes_entryAdd]
      · intro _ h75
        have h1 : (now - sst) / 1000 / 60 = 1 := by omega
        simp [handleKey, hm, saveErrors, getMinutes_entryAdd, h1]
      · intro h
        simp at h
    · refine ⟨?_, ?_, ?_, ?_⟩
      · simp [handleKey, hm]
      · intro _ h
        omega
      · intro _ h75
        exact absurd (by omega : 0 < (now - sst) / 1000 / 60) hm
      · intro h
        simp at h

/-- Witness for C3: quitting with the stopwatch running after 75 s commits
exactly 1 minute (5 → 6) and exits the loop. -/
theorem quit_commit_witness :
    (handleKey true 75000 "2024-01-01" Key.q runningStopwatchState).quit = true ∧
    getMinutes "2024-01-01"
        (handleKey true 75000 "2024-01-01" Key.q runningStopwatchState).state.history
      = 6 := by
  have h := quit_commit true 75000 "2024-01-01" runningStopwatchState
  refine ⟨h.1, ?_⟩
  have h2 := (h.2.2.1 rfl (by decide)).1
  rw [h2]
  decide

set_option maxHeartbeats 1000000 in
/-- C9: a failure of the history save at any commit point is non-fatal:
the resulting state (and the saved map and the quit decision) is identical
to the success case — the in-memory mapping kept after a failed save is
exactly the mapping that was passed to the save — and the failure is
reported on the error channel; render ticks never quit the loop. -/
theorem save_failure_nonfatal (now : Nat) (today : String) (widgetHeight : Nat)
    (k : Key) (s : AppState) :
    (handleKey false now today k s).state = (handleKey true now today k s).state ∧
    (handleKey false now today k s).saved = (handleKey true now today k s).saved ∧
    (handleKey false now today k s).quit = (handleKey true now today k s).quit ∧
    (∀ m, (handleKey false now today k s).saved = some m →
      (handleKey false now today k s).state.history = m ∧
      (handleKey false now today k s).errors ≠ []) ∧
    (renderTick false now today widgetHeight s).state
        = (renderTick true now today widgetHeight s).state ∧
    (renderTick false now today widgetHeight s).saved
        = (renderTick true now today widgetHeight s).saved ∧
    (renderTick false now today widgetHeight s).quit = false ∧
    (∀ m, (renderTick false now today widgetHeight s).saved = some m →
      (renderTick false now today widgetHeight s).state.history = m ∧
      (renderTick false now today widgetHeight s).errors ≠ []) := by
  obtain ⟨p, sst, srun, sdisp, tst, trun, ttot, tdisp, tlog, tdone, hoff, hist⟩ := s
  refine ⟨?_, ?_, ?_, ?_, ?_, ?_, ?_, ?_⟩
  · rcases p with _ | _ | _ | p <;> cases k <;> cases srun <;> cases trun <;> cases tdone <;>
      simp only [handleKey, noStep, saveErrors] <;> (try split_ifs) <;> rfl
  · rcases p with _ | _ | _ | p <;> cases k <;> cases srun <;> cases trun <;> cases tdone <;>
      simp only [handleKey, noStep, saveErrors] <;> (try split_ifs) <;> rfl
  · rcases p with _ | _ | _ | p <;> cases k <;> cases srun <;> cases trun <;> cases tdone <;>
      simp only [handleKey, noStep, saveErrors] <;> (try split_ifs) <;> rfl
  · intro m hm
    rcases p with _ | _ | _ | p <;> cases k <;> cases srun <;> cases trun <;> cases tdone <;>
      simp only [handleKey, noStep, saveErrors] at hm ⊢ <;> (try split_ifs at hm ⊢) <;> simp_all
  · rcases p with _ | _ | _ | p <;> cases srun <;> cases trun <;>
      simp only [renderTick, noStep, saveErrors] <;> (try split_ifs) <;> rfl
  · rcases p with _ | _ | _ | p <;> cases srun <;> cases trun <;>
      simp only [renderTick, noStep, saveErrors] <;> (try split_ifs) <;> rfl
  · rcases p with _ | _ | _ | p <;> cases srun <;> cases trun <;>
      simp only [renderTick, noStep, saveErrors] <;> (try split_ifs) <;> rfl
  · intro m hm
    rcases p with _ | _ | _ | p <;> cases srun <;> cases trun <;>
      simp only [renderTick, noStep, saveErrors] at hm ⊢ <;> (try split_ifs at hm ⊢) <;> simp_all

/-- Witness for C9: a stopwatch stop after 120 s with the save failing
keeps the committed 2 minutes (5 → 7) in memory and reports an error. -/
theorem save_failure_nonfatal_witness :
    (handleKey false 120000 "2024-01-01" Key.space runningStopwatchState).state.history
        = [("2024-01-01", 7)] ∧
    (handleKey false 120000 "2024-01-01" Key.space runningStopwatchState).errors ≠ [] := by
  have h := save_failure_nonfatal 120000 "2024-01-01" 10 Key.space runningStopwatchState
  have h4 := h.2.2.2.1 [("2024-01-01", 7)] (by decide)
  exact ⟨h4.1, h4.2⟩

/-- C5: the history view lists the keys that parse as `YYYY-MM-DD` dates
sorted descending (the view is a sorted permutation of the parsable keys
followed by exactly the unparsable keys in their original iteration
order); in particular the three example dates inserted in any order render
as `2024-03-01, 2024-02-01, 2024-01-01`, and a key `"not-a-date"` appears
after all valid dates. -/
theorem history_view_order :
    (∀ keys : List String,
      ∃ valid : List (Date × String),
        historyRows keys
            = valid ++ (keys.filter (fun k => (parseDate k).isNone)).map
                (fun k => ((⟨1970, 1, 1⟩ : Date), k)) ∧
        valid.Pairwise rowLe ∧
        valid.Perm (keys.filterMap (fun k => (parseDate k).map (fun d => (d, k)))) ∧
        (∀ r ∈ valid, (parseDate r.2).isSome = true)) ∧
    (historyRows ["2024-01-01", "2024-03-01", "2024-02-01"]).map Prod.snd
        = ["2024-03-01", "2024-02-01", "2024-01-01"] ∧
    (historyRows ["2024-01-01", "2024-02-01", "2024-03-01"]).map Prod.snd
        = ["2024-03-01", "2024-02-01", "2024-01-01"] ∧
    (historyRows ["2024-02-01", "2024-01-01", "2024-03-01"]).map Prod.snd
        = ["2024-03-01", "2024-02-01", "2024-01-01"] ∧
    (historyRows ["2024-02-01", "2024-03-01", "2024-01-01"]).map Prod.snd
        = ["2024-03-01", "2024-02-01", "2024-01-01"] ∧
    (historyRows ["2024-03-01", "2024-01-01", "2024-02-01"]).map Prod.snd
        = ["2024-03-01", "2024-02-01", "2024-01-01"] ∧
    (historyRows ["2024-03-01", "2024-02-01", "2024-01-01"]).map Prod.snd
        = ["2024-03-01", "2024-02-01", "2024-01-01"] ∧
    (historyRows ["2024-01-01", "not-a-date", "2024-03-01", "2024-02-01"]).map Prod.snd
        = ["2024-03-01", "2024-02-01", "2024-01-01", "not-a-date"] := by
  refine ⟨?_, by decide, by decide, by decide, by decide, by decide, by decide, by decide⟩
  intro keys
  refine ⟨List.insertionSort rowLe
      (keys.filterMap (fun k => (parseDate k).map (fun d => (d, k)))), rfl, ?_, ?_, ?_⟩
  · exact List.sorted_insertionSort rowLe _
  · exact List.perm_insertionSort rowLe _
  · intro r hr
    rw [List.mem_insertionSort] at hr
    simp only [List.mem_filterMap] at hr
    obtain ⟨k, hk, hpk⟩ := hr
    rcases hp : parseDate k with _ | d
    · rw [hp] at hpk
      simp at hpk
    · rw [hp] at hpk
      simp only [Option.map_some'] at hpk
      cases hpk
      simp [hp]

/-- Witness for C5: the concrete mixed example, extracted from the claim
theorem. -/
theorem history_view_order_witness :
    (historyRows ["2024-01-01", "not-a-date", "2024-03-01", "2024-02-01"]).map Prod.snd
        = ["2024-03-01", "2024-02-01", "2024-01-01", "not-a-date"] :=
  history_view_order.2.2.2.2.2.2.2
